import Mathlib

/-
Shallow embedding of the Task API in `src/main.py`: a FastAPI app exposing
register/login plus CRUD-and-complete endpoints over task records kept in a
Firestore collection, with per-record ownership checks.

The external collaborators (Firebase identity provider, Firestore document
store, FastAPI request validation) are modelled per the behaviour the spec
assigns to them in sections 4.1 and 4.2: the store is an association list
from document id to record, `update` is a field-level merge, `delete`
removes the record; identity calls are abstracted as function parameters.
Handlers are translated line by line from `main.py`: each returns the store
after the request together with the HTTP outcome, and the error raises in
the Python code become error outcomes taken before any store write.
-/

set_option autoImplicit false

namespace TaskApi

/-- The `Task` pydantic model of `main.py` (request body for task creation). -/
structure Task where
  title : String
  description : String
  completed : Bool
deriving DecidableEq, Repr

/-- The `TaskUpdate` pydantic model: every field `Optional` with default
`None`, so an absent field and an explicit `null` both parse to `none`. -/
structure TaskUpdate where
  title : Option String
  description : Option String
  completed : Option Bool
deriving DecidableEq, Repr

/-- A document in the `tasks` Firestore collection, as written by
`create_task`: the three `Task` fields plus `user_id`. -/
structure StoredTask where
  title : String
  description : String
  completed : Bool
  user_id : String
deriving DecidableEq, Repr

/-- The `TaskInDb` response model: stored fields plus the document id. -/
structure TaskInDb where
  title : String
  description : String
  completed : Bool
  user_id : String
  id : String
deriving DecidableEq, Repr

/-- The `GeneralResModel` response body for task mutations. -/
structure GeneralRes where
  message : String
  task_id : String
deriving DecidableEq, Repr

/-- The `LoginResModel` response body. -/
structure LoginRes where
  access_token : String
  token_type : String
deriving DecidableEq, Repr

/-- The `RegResModel` response body. -/
structure RegRes where
  message : String
  user_uid : String
deriving DecidableEq, Repr

/-- Outcome of one request: a 200 body, or an `HTTPException` with its
status code and `detail` string. -/
inductive Outcome (α : Type) where
  | ok (res : α)
  | httpError (status : Nat) (detail : String)
deriving DecidableEq, Repr

/-- Whether an outcome is an `HTTPException`. -/
def Outcome.isError {α : Type} : Outcome α → Bool
  | .ok _ => false
  | .httpError _ _ => true

/-- The `tasks` Firestore collection, modelled per spec section 4.2 as a
finite map from document id to stored record (store-native order is the
list order). -/
abbrev Store := List (String × StoredTask)

/-- `db.collection("tasks").document(id).get()`: the first document whose
id matches, if any (`none` models `exists == False`). -/
def Store.get : Store → String → Option StoredTask
  | [], _ => none
  | p :: s, id => if p.1 = id then some p.2 else Store.get s id

/-- `document(id).update(...)` merge, abstracted over the field merge `f`:
rewrites the document with id `id` in place, leaving every other document
untouched. -/
def Store.setDoc : Store → String → (StoredTask → StoredTask) → Store
  | [], _, _ => []
  | p :: s, id, f => (if p.1 = id then (p.1, f p.2) else p) :: Store.setDoc s id f

/-- `document(id).delete()`: removes the document with id `id`. -/
def Store.deleteDoc : Store → String → Store
  | [], _ => []
  | p :: s, id => if p.1 = id then Store.deleteDoc s id else p :: Store.deleteDoc s id

/-- Line 169 of `main.py` composed with the Firestore merge (spec 4.2):
`data_to_update` keeps only the non-`None` fields of the `TaskUpdate`, and
the merge writes exactly those keys, so each stored field becomes the
supplied value when present and is left unchanged when the field was
`None`; `user_id` is not a `TaskUpdate` field and is never written. -/
def applyUpdate (t : StoredTask) (u : TaskUpdate) : StoredTask :=
  { title := u.title.getD t.title
    description := u.description.getD t.description
    completed := u.completed.getD t.completed
    user_id := t.user_id }

/-- Handler `create_task`: Firestore assigns a fresh document id
(`freshId`); the handler persists the task fields plus the caller uid and
returns the new id. -/
def create_task (store : Store) (task : Task) (uid : String) (freshId : String) :
    Store × GeneralRes :=
  ((freshId, ⟨task.title, task.description, task.completed, uid⟩) :: store,
   ⟨"Task created successfully", freshId⟩)

/-- Projection of a stored document to the `TaskInDb` response shape,
appending the document id as in line 144 of `main.py`. -/
def toTaskInDb (p : String × StoredTask) : TaskInDb :=
  ⟨p.2.title, p.2.description, p.2.completed, p.2.user_id, p.1⟩

/-- Handler `get_user_tasks`: streams the documents whose `user_id` equals
the caller's uid (store-native order) and appends each to the result list. -/
def get_user_tasks (store : Store) (uid : String) : List TaskInDb :=
  (store.filter (fun p => p.2.user_id = uid)).foldl
    (fun acc p => acc ++ [toTaskInDb p]) []

/-- Handler `update_task` (lines 157-172): 404 if the document does not
exist, then 403 if its `user_id` differs from the caller uid, else merge
the non-`None` fields and answer 200. -/
def update_task (store : Store) (task_id : String) (task : TaskUpdate) (uid : String) :
    Store × Outcome GeneralRes :=
  match Store.get store task_id with
  | none => (store, .httpError 404 "Task not found")
  | some task_data =>
    if task_data.user_id ≠ uid then (store, .httpError 403 "Access forbidden")
    else (Store.setDoc store task_id (fun t => applyUpdate t task),
          .ok ⟨"Task updated successfully", task_id⟩)

/-- Handler `delete_task` (lines 175-189): 404 if missing, 403 if not
owner, else delete the document and answer 200. -/
def delete_task (store : Store) (task_id : String) (uid : String) :
    Store × Outcome GeneralRes :=
  match Store.get store task_id with
  | none => (store, .httpError 404 "Task not found")
  | some task_data =>
    if task_data.user_id ≠ uid then (store, .httpError 403 "Access forbidden")
    else (Store.deleteDoc store task_id, .ok ⟨"Task deleted successfully", task_id⟩)

/-- Handler `complete_task` (lines 192-206): 404 if missing, 403 if not
owner, else write the single field `completed := true` and answer 200. -/
def complete_task (store : Store) (task_id : String) (uid : String) :
    Store × Outcome GeneralRes :=
  match Store.get store task_id with
  | none => (store, .httpError 404 "Task not found")
  | some task_data =>
    if task_data.user_id ≠ uid then (store, .httpError 403 "Access forbidden")
    else (Store.setDoc store task_id (fun t => { t with completed := true }),
          .ok ⟨"Task completed successfully", task_id⟩)

/-- `authenticate_user` (lines 87-96): calls the identity provider's
`sign_in_with_email_and_password`, modelled as a function returning the
`idToken` on success and `none` for any raised exception (all exceptions
are caught and collapsed to `None`). -/
def authenticate_user (sign_in : String → String → Option String)
    (email password : String) : Option LoginRes :=
  (sign_in email password).map (fun tok => ⟨tok, "bearer"⟩)

/-- Handler `login_user` (lines 125-131): 200 with the token pair when
authentication succeeds, otherwise 401 with the fixed detail string. -/
def login_user (sign_in : String → String → Option String)
    (username password : String) : Outcome LoginRes :=
  match authenticate_user sign_in username password with
  | some r => .ok r
  | none => .httpError 401 "Login failed"

/-- Result of the identity provider's `auth.create_user` as seen by
`create_user` (lines 82-84): the new uid, or a raised exception whose
message string becomes the 400 detail in `register_user`. -/
abbrev CreateUser := String → String → Except String String

/-- Models FastAPI request validation of the `UserRegistration` body: the
`email` field is declared `EmailStr` (lines 48-50), so a malformed address
is rejected before the handler runs. Only the minimal fact that an address
without a "@" is malformed is modelled. -/
def emailWellFormed (s : String) : Bool := s.data.contains '@'

/-- Handler `register_user` (lines 116-122), reached only with a validated
body: 200 with the uid, or 400 with the provider exception's message. -/
def register_user (create : CreateUser) (email password : String) : Outcome RegRes :=
  match create email password with
  | .ok uid => .ok ⟨"User registered successfully", uid⟩
  | .error e => .httpError 400 e

/-- The full `POST /register` pipeline: FastAPI validates the body against
`UserRegistration` (422 on failure, the framework's request-validation
status) and only then calls `register_user`. -/
def register_endpoint (create : CreateUser) (email password : String) : Outcome RegRes :=
  if emailWellFormed email then register_user create email password
  else .httpError 422 "value is not a valid email address"

/-- One occurrence of a field in the JSON body of a partial update: the key
may be absent, present with value `null`, or present with a value. -/
inductive FieldInput (α : Type) where
  | absent
  | null
  | value (a : α)
deriving DecidableEq, Repr

/-- How pydantic parses one `Optional` field with default `None`: both an
absent key and an explicit `null` become `None`. -/
def FieldInput.toOpt {α : Type} : FieldInput α → Option α
  | .absent => none
  | .null => none
  | .value a => some a

/-- The raw JSON body of a `PUT /task` request, before pydantic parsing. -/
structure RawTaskUpdate where
  title : FieldInput String
  description : FieldInput String
  completed : FieldInput Bool
deriving DecidableEq, Repr

/-- Pydantic parsing of the raw body into the `TaskUpdate` model. -/
def parseBody (r : RawTaskUpdate) : TaskUpdate :=
  ⟨r.title.toOpt, r.description.toOpt, r.completed.toOpt⟩

/-- One authenticated mutation request against an existing record: the
update and complete endpoints (the ones the owner-immutability claim
quantifies over). -/
inductive TaskOp where
  | update (task_id : String) (u : TaskUpdate) (uid : String)
  | complete (task_id : String) (uid : String)
deriving DecidableEq, Repr

/-- The store after serving one request (on an error outcome the handler
raised before writing, so the store is the one it was given). -/
def runOp (store : Store) : TaskOp → Store
  | .update id u uid => (update_task store id u uid).1
  | .complete id uid => (complete_task store id uid).1

/-- The store after serving a sequence of requests in order. -/
def runOps (store : Store) (ops : List TaskOp) : Store :=
  ops.foldl runOp store

theorem get_setDoc (s : Store) (id j : String) (f : StoredTask → StoredTask) :
    Store.get (Store.setDoc s id f) j
      = (Store.get s j).map (fun t => if j = id then f t else t) := by
  induction s with
  | nil => simp [Store.setDoc, Store.get]
  | cons p s ih =>
    by_cases h1 : p.1 = id
    · subst h1
      by_cases h2 : p.1 = j
      · subst h2; simp [Store.setDoc, Store.get]
      · simp [Store.setDoc, Store.get, h2, ih]
    · by_cases h2 : p.1 = j
      · subst h2; simp [Store.setDoc, Store.get, h1]
      · simp [Store.setDoc, Store.get, h1, h2, ih]

theorem setDoc_self (s : Store) (id : String) :
    Store.setDoc s id (fun t => t) = s := by
  induction s with
  | nil => rfl
  | cons p s ih =>
    by_cases h : p.1 = id
    · subst h; simp [Store.setDoc, ih]
    · simp [Store.setDoc, h, ih]

theorem get_deleteDoc_self (s : Store) (id : String) :
    Store.get (Store.deleteDoc s id) id = none := by
  induction s with
  | nil => rfl
  | cons p s ih => by_cases h : p.1 = id <;> simp [Store.deleteDoc, Store.get, h, ih]

theorem foldl_append_eq_map (l : List (String × StoredTask)) (acc : List TaskInDb) :
    l.foldl (fun acc p => acc ++ [toTaskInDb p]) acc = acc ++ l.map toTaskInDb := by
  induction l generalizing acc with
  | nil => simp
  | cons p l ih => simp [ih]

/-- A sample stored task owned by user `u1`, as in the spec's section 8
example. -/
def sampleTask : StoredTask := ⟨"A", "B", false, "u1"⟩

/-- A sample one-document store holding `sampleTask` under id `d1`. -/
def sampleStore : Store := [("d1", sampleTask)]

/-- Claim C1: for update, delete and complete the existence check precedes
the ownership check: a missing id yields 404 for every authenticated
caller (so a non-owner request on a missing record never receives 403), an
existing record owned by someone else yields 403, and an owned record
proceeds to a 200 outcome. -/
theorem existence_check_precedes_ownership (store : Store) (id : String)
    (u : TaskUpdate) (uid : String) :
    (Store.get store id = none →
      (update_task store id u uid).2 = .httpError 404 "Task not found" ∧
      (delete_task store id uid).2 = .httpError 404 "Task not found" ∧
      (complete_task store id uid).2 = .httpError 404 "Task not found") ∧
    (∀ t, Store.get store id = some t → t.user_id ≠ uid →
      (update_task store id u uid).2 = .httpError 403 "Access forbidden" ∧
      (delete_task store id uid).2 = .httpError 403 "Access forbidden" ∧
      (complete_task store id uid).2 = .httpError 403 "Access forbidden") ∧
    (∀ t, Store.get store id = some t → t.user_id = uid →
      (update_task store id u uid).2 = .ok ⟨"Task updated successfully", id⟩ ∧
      (delete_task store id uid).2 = .ok ⟨"Task deleted successfully", id⟩ ∧
      (complete_task store id uid).2 = .ok ⟨"Task completed successfully", id⟩) := by
  refine ⟨fun h => ?_, fun t h hown => ?_, fun t h hown => ?_⟩
  · simp [update_task, delete_task, complete_task, h]
  · simp [update_task, delete_task, complete_task, h, hown]
  · simp [update_task, delete_task, complete_task, h, hown]

/-- Witness for C1 on the sample store: a missing id gives 404 to a
non-owner, the existing document gives 403 to `u2` and 200 to `u1`. -/
theorem existence_check_precedes_ownership_witness :
    (update_task sampleStore "missing" ⟨none, none, none⟩ "u2").2
      = .httpError 404 "Task not found" ∧
    (delete_task sampleStore "d1" "u2").2 = .httpError 403 "Access forbidden" ∧
    (complete_task sampleStore "d1" "u1").2
      = .ok ⟨"Task completed successfully", "d1"⟩ := by
  refine ⟨?_, ?_, ?_⟩
  · exact ((existence_check_precedes_ownership sampleStore "missing"
      ⟨none, none, none⟩ "u2").1 (by decide)).1
  · exact (((existence_check_precedes_ownership sampleStore "d1"
      ⟨none, none, none⟩ "u2").2.1 sampleTask (by decide) (by decide)).2).1
  · exact (((existence_check_precedes_ownership sampleStore "d1"
      ⟨none, none, none⟩ "u1").2.2 sampleTask (by decide) (by decide)).2).2

/-- Claim C10: whenever update, delete or complete answers with an
`HTTPException` (404 or 403), the store it returns is exactly the store it
was given: both error branches are taken before any write. -/
theorem error_implies_store_unchanged (store : Store) (id : String)
    (u : TaskUpdate) (uid : String) (s : Nat) (d : String) :
    ((update_task store id u uid).2 = .httpError s d →
      (update_task store id u uid).1 = store) ∧
    ((delete_task store id uid).2 = .httpError s d →
      (delete_task store id uid).1 = store) ∧
    ((complete_task store id uid).2 = .httpError s d →
      (complete_task store id uid).1 = store) := by
  refine ⟨?_, ?_, ?_⟩ <;>
  · cases hg : Store.get store id with
    | none => simp [update_task, delete_task, complete_task, hg]
    | some t =>
      by_cases hu : t.user_id = uid <;>
        simp [update_task, delete_task, complete_task, hg, hu]

/-- Witness for C10: a 404 and a 403 on the sample store both leave it
untouched. -/
theorem error_implies_store_unchanged_witness :
    (update_task sampleStore "missing" ⟨some "X", none, none⟩ "u2").1
        = sampleStore ∧
    (delete_task sampleStore "d1" "u2").1 = sampleStore := by
  exact ⟨(error_implies_store_unchanged sampleStore "missing"
      ⟨some "X", none, none⟩ "u2" 404 "Task not found").1 (by decide),
    (error_implies_store_unchanged sampleStore "d1"
      ⟨some "X", none, none⟩ "u2" 403 "Access forbidden").2.1 (by decide)⟩

theorem applyUpdate_empty (t : StoredTask) : applyUpdate t ⟨none, none, none⟩ = t :=
  rfl

/-- Claim C2: an owner update changes exactly the supplied fields of the
addressed record and nothing else: the record becomes the merge of the old
record with the non-`None` fields, fields left `None` keep their stored
value, supplied fields take the supplied value, every other record is
untouched, an empty partial object leaves the whole store unchanged (and
still answers 200), and an update of only `completed` leaves title and
description untouched. -/
theorem update_changes_exactly_supplied_fields (store : Store) (id uid : String)
    (u : TaskUpdate) (t : StoredTask)
    (h : Store.get store id = some t) (hown : t.user_id = uid) :
    (update_task store id u uid).2 = .ok ⟨"Task updated successfully", id⟩ ∧
    Store.get (update_task store id u uid).1 id = some (applyUpdate t u) ∧
    (∀ j, j ≠ id → Store.get (update_task store id u uid).1 j = Store.get store j) ∧
    (u.title = none → (applyUpdate t u).title = t.title) ∧
    (u.description = none → (applyUpdate t u).description = t.description) ∧
    (u.completed = none → (applyUpdate t u).completed = t.completed) ∧
    (∀ v, u.title = some v → (applyUpdate t u).title = v) ∧
    (∀ v, u.description = some v → (applyUpdate t u).description = v) ∧
    (∀ v, u.completed = some v → (applyUpdate t u).completed = v) ∧
    (applyUpdate t u).user_id = t.user_id ∧
    (u = ⟨none, none, none⟩ → (update_task store id u uid).1 = store) ∧
    (u = ⟨none, none, some true⟩ →
      (applyUpdate t u).title = t.title ∧
      (applyUpdate t u).description = t.description) := by
  have hupd : update_task store id u uid
      = (Store.setDoc store id (fun s => applyUpdate s u),
         .ok ⟨"Task updated successfully", id⟩) := by
    simp [update_task, h, hown]
  refine ⟨by rw [hupd], ?_, ?_, ?_, ?_, ?_, ?_, ?_, ?_, rfl, ?_, ?_⟩
  · rw [hupd]; simp [get_setDoc, h]
  · intro j hj
    rw [hupd]
    simp only [get_setDoc]
    cases Store.get store j <;> simp [hj]
  · intro hn; simp [applyUpdate, hn]
  · intro hn; simp [applyUpdate, hn]
  · intro hn; simp [applyUpdate, hn]
  · intro v hv; simp [applyUpdate, hv]
  · intro v hv; simp [applyUpdate, hv]
  · intro v hv; simp [applyUpdate, hv]
  · intro he
    subst he
    rw [hupd]
    show Store.setDoc store id (fun s => s) = store
    exact setDoc_self store id
  · intro he; subst he; exact ⟨rfl, rfl⟩

/-- Witness for C2 on the sample store: updating only `completed` keeps
title, description and the rest of the store intact, and the empty partial
object is a 200 no-op. -/
theorem update_changes_exactly_supplied_fields_witness :
    (update_task sampleStore "d1" ⟨none, none, some true⟩ "u1").2
      = .ok ⟨"Task updated successfully", "d1"⟩ ∧
    Store.get (update_task sampleStore "d1" ⟨none, none, some true⟩ "u1").1 "d1"
      = some ⟨"A", "B", true, "u1"⟩ ∧
    (update_task sampleStore "d1" ⟨none, none, none⟩ "u1").1 = sampleStore := by
  refine ⟨(update_changes_exactly_supplied_fields sampleStore "d1" "u1"
      ⟨none, none, some true⟩ sampleTask (by decide) (by decide)).1, ?_, ?_⟩
  · have := (update_changes_exactly_supplied_fields sampleStore "d1" "u1"
      ⟨none, none, some true⟩ sampleTask (by decide) (by decide)).2.1
    simpa [applyUpdate, sampleTask] using this
  · exact (update_changes_exactly_supplied_fields sampleStore "d1" "u1"
      ⟨none, none, none⟩ sampleTask (by decide) (by decide)).2.2.2.2.2.2.2.2.2.2.1
        rfl

/-- Claim C9: a field supplied as an explicit `null` parses exactly like an
absent field, so the update pipeline treats the two requests identically
and the stored field keeps its value; consequently every field of the
record after a merge is either the stored value or a concrete supplied
value — no field is ever set to null. -/
theorem null_field_treated_as_absent (store : Store) (id uid : String)
    (r : RawTaskUpdate) (t : StoredTask) (u : TaskUpdate) :
    (update_task store id (parseBody { r with title := .null }) uid
      = update_task store id (parseBody { r with title := .absent }) uid) ∧
    (update_task store id (parseBody { r with description := .null }) uid
      = update_task store id (parseBody { r with description := .absent }) uid) ∧
    (update_task store id (parseBody { r with completed := .null }) uid
      = update_task store id (parseBody { r with completed := .absent }) uid) ∧
    (parseBody { r with title := .null }).title = none ∧
    ((applyUpdate t u).title = t.title ∨ u.title = some (applyUpdate t u).title) ∧
    ((applyUpdate t u).description = t.description
      ∨ u.description = some (applyUpdate t u).description) ∧
    ((applyUpdate t u).completed = t.completed
      ∨ u.completed = some (applyUpdate t u).completed) := by
  refine ⟨rfl, rfl, rfl, rfl, ?_, ?_, ?_⟩
  · cases hv : u.title <;> simp [applyUpdate, hv]
  · cases hv : u.description <;> simp [applyUpdate, hv]
  · cases hv : u.completed <;> simp [applyUpdate, hv]

/-- A sample store holding one document of user `u1` and one of user `u2`. -/
def sampleStore2 : Store :=
  [("d1", ⟨"A", "B", false, "u1"⟩), ("d2", ⟨"C", "D", true, "u2"⟩)]

/-- Claim C3: the task list returned to a caller is exactly the stored
documents whose `user_id` equals the caller's uid, in store-native order;
hence every listed task is owned by the caller and no task of a distinct
user ever appears. -/
theorem list_tasks_owner_isolation (store : Store) (uid : String) :
    get_user_tasks store uid
      = (store.filter (fun p => p.2.user_id = uid)).map toTaskInDb ∧
    (∀ t, t ∈ get_user_tasks store uid → t.user_id = uid) ∧
    (∀ other, other ≠ uid → ∀ t, t ∈ get_user_tasks store uid →
      t.user_id ≠ other) := by
  have h1 : get_user_tasks store uid
      = (store.filter (fun p => p.2.user_id = uid)).map toTaskInDb := by
    unfold get_user_tasks
    rw [foldl_append_eq_map]
    simp
  have h2 : ∀ t, t ∈ get_user_tasks store uid → t.user_id = uid := by
    intro t ht
    rw [h1] at ht
    simp only [List.mem_map, List.mem_filter] at ht
    obtain ⟨p, ⟨_, hp⟩, rfl⟩ := ht
    simpa [toTaskInDb] using hp
  refine ⟨h1, h2, ?_⟩
  intro other hother t ht hc
  have := h2 t ht
  rw [hc] at this
  exact hother this

/-- Witness for C3 on the two-user sample store: the single task listed to
`u2` is owned by `u2` and not by the distinct user `u1`. -/
theorem list_tasks_owner_isolation_witness :
    get_user_tasks sampleStore2 "u2" = [⟨"C", "D", true, "u2", "d2"⟩] ∧
    (⟨"C", "D", true, "u2", "d2"⟩ : TaskInDb).user_id = "u2" ∧
    (⟨"C", "D", true, "u2", "d2"⟩ : TaskInDb).user_id ≠ "u1" := by
  refine ⟨by decide, ?_, ?_⟩
  · exact (list_tasks_owner_isolation sampleStore2 "u2").2.1 _ (by decide)
  · exact (list_tasks_owner_isolation sampleStore2 "u2").2.2 "u1" (by decide) _
      (by decide)

theorem runOp_preserves_user_id (store : Store) (op : TaskOp) (id : String)
    (t : StoredTask) (h : Store.get store id = some t) :
    ∃ u, Store.get (runOp store op) id = some u ∧ u.user_id = t.user_id := by
  have key : ∀ (tid : String) (f : StoredTask → StoredTask),
      (∀ s, (f s).user_id = s.user_id) →
      ∃ u, Store.get (Store.setDoc store tid f) id = some u
        ∧ u.user_id = t.user_id := by
    intro tid f hf
    rw [get_setDoc, h]
    by_cases hid : id = tid <;> simp [hid, hf]
  cases op with
  | update tid u uid =>
    show ∃ u_1, Store.get (update_task store tid u uid).1 id = some u_1 ∧ _
    unfold update_task
    cases hg : Store.get store tid with
    | none => exact ⟨t, h, rfl⟩
    | some td =>
      by_cases hu : td.user_id = uid
      · simp only [hu, ne_eq, not_true_eq_false, if_false, ite_false]
        exact key tid _ (fun s => rfl)
      · simp only [ne_eq, hu, not_false_eq_true, if_true, ite_true]
        exact ⟨t, h, rfl⟩
  | complete tid uid =>
    show ∃ u_1, Store.get (complete_task store tid uid).1 id = some u_1 ∧ _
    unfold complete_task
    cases hg : Store.get store tid with
    | none => exact ⟨t, h, rfl⟩
    | some td =>
      by_cases hu : td.user_id = uid
      · simp only [hu, ne_eq, not_true_eq_false, if_false, ite_false]
        exact key tid _ (fun s => rfl)
      · simp only [ne_eq, hu, not_false_eq_true, if_true, ite_true]
        exact ⟨t, h, rfl⟩

/-- Claim C4: the `user_id` of a stored document is set at creation to the
creating caller's uid, and no sequence of update/complete requests ever
changes it: after any such sequence the document still has the `user_id`
it was created with. -/
theorem owner_id_set_at_creation_immutable :
    (∀ (store : Store) (task : Task) (uid fid : String),
      Store.get (create_task store task uid fid).1 fid
        = some ⟨task.title, task.description, task.completed, uid⟩) ∧
    (∀ (store : Store) (ops : List TaskOp) (id : String) (t : StoredTask),
      Store.get store id = some t →
      ∃ u, Store.get (runOps store ops) id = some u
        ∧ u.user_id = t.user_id) := by
  constructor
  · intro store task uid fid
    simp [create_task, Store.get]
  · intro store ops
    induction ops generalizing store with
    | nil => intro id t h; exact ⟨t, h, rfl⟩
    | cons op ops ih =>
      intro id t h
      obtain ⟨u, hu, huid⟩ := runOp_preserves_user_id store op id t h
      obtain ⟨v, hv, hvid⟩ := ih (runOp store op) id u hu
      exact ⟨v, hv, hvid.trans huid⟩

/-- Witness for C4: a freshly created document carries its creator's uid,
and after an owner update followed by a complete the sample document still
belongs to `u1`. -/
theorem owner_id_set_at_creation_immutable_witness :
    Store.get (create_task sampleStore ⟨"A", "B", false⟩ "u1" "d9").1 "d9"
      = some ⟨"A", "B", false, "u1"⟩ ∧
    (Store.get (runOps sampleStore
        [TaskOp.update "d1" ⟨some "Z", none, none⟩ "u1",
         TaskOp.complete "d1" "u1"]) "d1").map StoredTask.user_id
      = some "u1" := by
  constructor
  · exact owner_id_set_at_creation_immutable.1 sampleStore ⟨"A", "B", false⟩ "u1" "d9"
  · obtain ⟨u, hu, huid⟩ := owner_id_set_at_creation_immutable.2 sampleStore
      [TaskOp.update "d1" ⟨some "Z", none, none⟩ "u1",
       TaskOp.complete "d1" "u1"] "d1" sampleTask (by decide)
    rw [hu]
    simp [huid, sampleTask]

/-- Claim C5: for an existing record owned by the caller, complete is the
update with partial input `completed := true`: it has the same store
effect as that update on every input, sets `completed` to `true`, changes
no other field or document, and answers 200 with a message and the task
id. -/
theorem complete_refines_update (store : Store) (id uid : String) :
    (complete_task store id uid).1
      = (update_task store id ⟨none, none, some true⟩ uid).1 ∧
    (∀ t, Store.get store id = some t → t.user_id = uid →
      (complete_task store id uid).2 = .ok ⟨"Task completed successfully", id⟩ ∧
      Store.get (complete_task store id uid).1 id
        = some { t with completed := true } ∧
      (∀ j, j ≠ id →
        Store.get (complete_task store id uid).1 j = Store.get store j)) := by
  constructor
  · cases hg : Store.get store id with
    | none => simp [complete_task, update_task, hg]
    | some t =>
      by_cases hu : t.user_id = uid <;>
        simp [complete_task, update_task, hg, hu, applyUpdate]
  · intro t h hown
    have hcmp : complete_task store id uid
        = (Store.setDoc store id (fun s => { s with completed := true }),
           .ok ⟨"Task completed successfully", id⟩) := by
      simp [complete_task, h, hown]
    refine ⟨by rw [hcmp], ?_, ?_⟩
    · rw [hcmp]; simp [get_setDoc, h]
    · intro j hj
      rw [hcmp]
      simp only [get_setDoc]
      cases Store.get store j <;> simp [hj]

/-- Witness for C5 on the sample store: complete by the owner answers 200
and yields the same store as the `completed := true` update, with only
`completed` changed. -/
theorem complete_refines_update_witness :
    (complete_task sampleStore "d1" "u1").1
      = (update_task sampleStore "d1" ⟨none, none, some true⟩ "u1").1 ∧
    (complete_task sampleStore "d1" "u1").2
      = .ok ⟨"Task completed successfully", "d1"⟩ ∧
    Store.get (complete_task sampleStore "d1" "u1").1 "d1"
      = some ⟨"A", "B", true, "u1"⟩ := by
  refine ⟨(complete_refines_update sampleStore "d1" "u1").1, ?_, ?_⟩
  · exact ((complete_refines_update sampleStore "d1" "u1").2 sampleTask
      (by decide) (by decide)).1
  · have := ((complete_refines_update sampleStore "d1" "u1").2 sampleTask
      (by decide) (by decide)).2.1
    simpa [sampleTask] using this

/-- Claim C6: an owner deleting the same task twice: the first request
answers 200 and removes the document, and the second request on the same
id answers 404 — delete-of-missing is a `NotFoundError`, not a silent
no-op. -/
theorem delete_twice_second_404 (store : Store) (id uid : String)
    (t : StoredTask) (h : Store.get store id = some t)
    (hown : t.user_id = uid) :
    (delete_task store id uid).2 = .ok ⟨"Task deleted successfully", id⟩ ∧
    (delete_task store id uid).1 = Store.deleteDoc store id ∧
    Store.get (delete_task store id uid).1 id = none ∧
    (delete_task (delete_task store id uid).1 id uid).2
      = .httpError 404 "Task not found" := by
  have hdel : delete_task store id uid
      = (Store.deleteDoc store id, .ok ⟨"Task deleted successfully", id⟩) := by
    simp [delete_task, h, hown]
  have hnone : Store.get (Store.deleteDoc store id) id = none :=
    get_deleteDoc_self store id
  refine ⟨by rw [hdel], by rw [hdel], by rw [hdel]; exact hnone, ?_⟩
  rw [hdel]
  simp [delete_task, hnone]

/-- Witness for C6 on the sample store: `u1` deletes `d1` with 200, the
document is gone, and the repeated delete answers 404. -/
theorem delete_twice_second_404_witness :
    (delete_task sampleStore "d1" "u1").2
      = .ok ⟨"Task deleted successfully", "d1"⟩ ∧
    Store.get (delete_task sampleStore "d1" "u1").1 "d1" = none ∧
    (delete_task (delete_task sampleStore "d1" "u1").1 "d1" "u1").2
      = .httpError 404 "Task not found" := by
  have h := delete_twice_second_404 sampleStore "d1" "u1" sampleTask
    (by decide) (by decide)
  exact ⟨h.1, h.2.2.1, h.2.2.2⟩

/-- A sample identity provider: sign-in succeeds only for the one
registered credential pair and raises (returns `none`) for every other
email or password. -/
def sampleSignIn : String → String → Option String :=
  fun email password =>
    if email = "a@b.c" ∧ password = "pw" then some "tok" else none

/-- Claim C7: every failing login — wrong email, wrong password, or any
provider-side failure, all of which surface as a `None` from
`authenticate_user` — produces the identical uniform 401 response, so two
failing credential pairs are indistinguishable from the response. -/
theorem login_failure_uniform_401 (sign_in : String → String → Option String)
    (e1 p1 e2 p2 : String)
    (h1 : sign_in e1 p1 = none) (h2 : sign_in e2 p2 = none) :
    login_user sign_in e1 p1 = .httpError 401 "Login failed" ∧
    login_user sign_in e1 p1 = login_user sign_in e2 p2 := by
  have a1 : authenticate_user sign_in e1 p1 = none := by
    simp [authenticate_user, h1]
  have a2 : authenticate_user sign_in e2 p2 = none := by
    simp [authenticate_user, h2]
  unfold login_user
  rw [a1, a2]
  exact ⟨rfl, rfl⟩

/-- Witness for C7 on the sample provider: a wrong email and a wrong
password both receive the same fixed 401 body. -/
theorem login_failure_uniform_401_witness :
    login_user sampleSignIn "x@y.z" "pw" = .httpError 401 "Login failed" ∧
    login_user sampleSignIn "x@y.z" "pw" = login_user sampleSignIn "a@b.c" "bad" := by
  exact login_failure_uniform_401 sampleSignIn "x@y.z" "pw" "a@b.c" "bad"
    (by simp [sampleSignIn]) (by simp [sampleSignIn])

/-- A sample identity provider account store: creating `a@b.c` raises
because the address is already in use; any other address succeeds. -/
def sampleCreate : CreateUser :=
  fun email _ =>
    if email = "a@b.c" then Except.error "EMAIL_EXISTS" else Except.ok "uid1"

/-- Counterexample to C8 as stated: a registration request with the
malformed email `invalid-email` fails, but with status 422 from FastAPI's
request validation of the `EmailStr` field, not 400 — even with a provider
that would accept any request. -/
theorem register_malformed_email_is_422_not_400 :
    register_endpoint (fun _ _ => Except.ok "uid1") "invalid-email" "pw"
      = Outcome.httpError 422 "value is not a valid email address" ∧
    (422 : Nat) ≠ 400 := by
  exact ⟨rfl, by decide⟩

/-- Amended C8: a failing registration whose body passes validation (the
email is well-formed) always fails with 400 carrying the provider's
message; a malformed email is rejected with 422 before the handler runs,
so every failing registration yields 400 or 422 and nothing else. -/
theorem register_failure_status (create : CreateUser) (email password : String) :
    (emailWellFormed email = false →
      register_endpoint create email password
        = .httpError 422 "value is not a valid email address") ∧
    (∀ e, emailWellFormed email = true → create email password = .error e →
      register_endpoint create email password = .httpError 400 e) ∧
    (∀ s d, register_endpoint create email password = .httpError s d →
      s = 400 ∨ s = 422) := by
  refine ⟨fun hv => ?_, fun e hv he => ?_, fun s d h => ?_⟩
  · simp [register_endpoint, hv]
  · simp [register_endpoint, register_user, hv, he]
  · revert h
    unfold register_endpoint register_user
    by_cases hv : emailWellFormed email
    · simp only [hv, if_true]
      cases create email password <;> simp
      intro h _
      exact Or.inl h.symm
    · simp only [hv, if_false, Bool.false_eq_true]
      intro h
      rw [Outcome.httpError.injEq] at h
      exact Or.inr h.1.symm

/-- Witness for the amended C8 on the sample provider: the already-used
well-formed address fails with 400 and the provider's message, while a
malformed address fails with 422. -/
theorem register_failure_status_witness :
    register_endpoint sampleCreate "a@b.c" "pw"
      = .httpError 400 "EMAIL_EXISTS" ∧
    register_endpoint sampleCreate "invalid-email" "pw"
      = .httpError 422 "value is not a valid email address" := by
  constructor
  · exact (register_failure_status sampleCreate "a@b.c" "pw").2.1 "EMAIL_EXISTS"
      (by decide) (by simp [sampleCreate])
  · exact (register_failure_status sampleCreate "invalid-email" "pw").1 (by decide)

end TaskApi
